import Mathlib

/-!
# zustandmiddleware: two example applications over a state container

A shallow embedding of the four source files

* `zustand-devtools/src/CounterStore.js` and `zustand-devtools/src/App.jsx`
  (a counter store and its `Counter` component),
* `zustand-persist/src/authStore.js` and `zustand-persist/src/App.jsx`
  (an authentication store persisted under `"auth-storage"` and its `App` component),

followed by the properties of the specification, each stated over these definitions.

JavaScript values are a small inductive type, store states are records (association
lists from property names to values), mutators are functions from store to store, and
a component is a function from the store to the element tree it returns.
-/

namespace ZustandMiddleware

/-! ## JavaScript values -/

/-- Function values: the three closures written in the source files, and the functions
the state library attaches to a bound store hook (`setState`, `getState`, ...), which
the source never calls. -/
inductive Fn where
  | increase
  | login
  | logout
  | api (name : String)

/-- The fragment of JavaScript values the two programs hold. `num n` is a Number whose
value is the non-negative integer `n` (every `n` up to `2 ^ 53` is one, and only some
larger ones); `obj` is a plain record. -/
inductive Val where
  | undefined
  | null
  | bool (b : Bool)
  | num (n : Nat)
  | str (s : String)
  | fn (f : Fn)
  | obj (fields : List (String × Val))

/-- A record: property names with their values, in insertion order. -/
abbrev Obj := List (String × Val)

/-- Ways an evaluation can stop without a value. `typeError` and `renderError` are the
errors JavaScript and the rendering library raise; `noSuchControl` answers a click on a
control the view does not contain; `unsupported` marks an operand outside the fragment
modelled here. -/
inductive Failure where
  | typeError (msg : String)
  | renderError (msg : String)
  | noSuchControl
  | unsupported

/-- Property read `o.key` on a record: the value of the first entry named `key`,
`undefined` when there is none. -/
def getField : Obj → String → Val
  | [], _ => .undefined
  | (k, v) :: rest, key => if k = key then v else getField rest key

/-- Property write `o.key = v` on a record: an existing property keeps its position,
a new one is appended. -/
def setField : Obj → String → Val → Obj
  | [], key, v => [(key, v)]
  | (k, w) :: rest, key, v =>
    if k = key then (k, v) :: rest else (k, w) :: setField rest key v

/-- The record `Object.assign({}, target, source)`, which is also `{...target, ...source}`:
every property of `source` is written over `target`. -/
def assign (target source : Obj) : Obj :=
  source.foldl (fun acc kv => setField acc kv.1 kv.2) target

/-- JavaScript truthiness, as tested by `c ? a : b`. -/
def truthy : Val → Bool
  | .undefined => false
  | .null => false
  | .bool b => b
  | .num n => n != 0
  | .str s => s != ""
  | .fn _ => true
  | .obj _ => true

/-- Property read `v.key` on an arbitrary value. Reading from `undefined` or `null`
throws; reads on primitives and functions go through prototype objects and are outside
the fragment. -/
def getProp : Val → String → Except Failure Val
  | .undefined, key => .error (.typeError ("Cannot read properties of undefined (reading " ++ key ++ ")"))
  | .null, key => .error (.typeError ("Cannot read properties of null (reading " ++ key ++ ")"))
  | .obj fields, key => .ok (getField fields key)
  | _, _ => .error .unsupported

/-- The largest power of two up to which every non-negative integer is a Number:
`2 ^ 53 = 9007199254740992`. -/
def exactLimit : Nat := 2 ^ 53

/-- The Number `n + 1` for a Number `n` that is a non-negative integer (IEEE 754 binary64,
round to nearest, ties to even). Below `2 ^ 53` the sum is exact. From `2 ^ 53` up to
`2 ^ 54` Numbers are the even integers, `n + 1` lies halfway between `n` and `n + 2` and
the one with the even significand `n / 2` or `n / 2 + 1` is taken. From `2 ^ 54` on the
spacing is at least 4 and the sum rounds back to `n`. -/
def addOne (n : Nat) : Nat :=
  if n < exactLimit then n + 1
  else if n < 2 * exactLimit ∧ n % 4 = 2 then n + 2
  else n

/-- The expression `v + 1`. Only Number operands are in the fragment. -/
def plusOne : Val → Except Failure Val
  | .num n => .ok (.num (addOne n))
  | _ => .error .unsupported

/-- Number to string conversion, as done for a Number rendered as text: integers below
`10 ^ 21` print as their decimal digits; larger ones print in exponent form, which is
outside the fragment. -/
def numberToString (n : Nat) : Except Failure String :=
  if n < 10 ^ 21 then .ok (toString n) else .error .unsupported

mutual
/-- The value `JSON.parse(JSON.stringify(v))`, or `none` when `JSON.stringify` leaves
`v` out (`undefined` and functions). -/
def jsonValue : Val → Option Val
  | .undefined => none
  | .fn _ => none
  | .obj fields => some (.obj (jsonFields fields))
  | .null => some .null
  | .bool b => some (.bool b)
  | .num n => some (.num n)
  | .str s => some (.str s)
/-- The properties of a record that survive `JSON.stringify`. -/
def jsonFields : List (String × Val) → List (String × Val)
  | [] => []
  | (k, v) :: rest =>
    match jsonValue v with
    | some w => (k, w) :: jsonFields rest
    | none => jsonFields rest
end

/-! ## Element trees and events -/

/-- The value of an `onClick` attribute: `ref f` for `onClick={f}`, and `arrow f args` for
an arrow function `() => f(args)` written in place. -/
inductive Handler where
  | ref (f : Val)
  | arrow (f : Val) (args : List Val)

/-- A rendered element tree. -/
inductive Node where
  | text (s : String)
  | elem (tag : String) (onClick : Option Handler) (children : List Node)

/-- What a value placed between braces in JSX renders to: strings and Numbers become
text, `undefined`, `null`, booleans and functions render nothing, and a record is
rejected by the rendering library. -/
def renderChild : Val → Except Failure (List Node)
  | .str s => .ok [.text s]
  | .num n =>
    match numberToString n with
    | .ok s => .ok [.text s]
    | .error e => .error e
  | .obj _ => .error (.renderError "Objects are not valid as a React child")
  | _ => .ok []

mutual
/-- The text a node shows: the concatenation of its text descendants. -/
def Node.textContent : Node → String
  | .text s => s
  | .elem _ _ children => textContentList children
/-- Concatenated text of a list of nodes. -/
def textContentList : List Node → String
  | [] => ""
  | n :: rest => Node.textContent n ++ textContentList rest
end

mutual
/-- The buttons of a tree in document order, each with its label and `onClick` value. -/
def Node.buttons : Node → List (String × Option Handler)
  | .text _ => []
  | .elem tag onClick children =>
    if tag = "button" then [(textContentList children, onClick)] else buttonsList children
/-- Buttons of a list of nodes. -/
def buttonsList : List Node → List (String × Option Handler)
  | [] => []
  | n :: rest => Node.buttons n ++ buttonsList rest
end

/-- The `onClick` value of the first button labelled `label`. -/
def findButton (label : String) : List (String × Option Handler) → Option (Option Handler)
  | [] => none
  | (l, h) :: rest => if l = label then some h else findButton label rest

/-- Activating a control: the rendering library calls a function-valued `onClick` with
the event object and attaches nothing for any other value; an arrow function written in
place calls its callee with the arguments written there. `call` is the application's
function call. -/
def activate {σ : Type} (call : Val → List Val → σ → Except Failure σ)
    (h : Option Handler) (event : Val) (store : σ) : Except Failure σ :=
  match h with
  | some (.ref (.fn f)) => call (.fn f) [event] store
  | some (.ref _) => .ok store
  | some (.arrow f args) => call f args store
  | none => .ok store

/-! ## zustand-devtools: the counter -/

namespace Devtools

/-- Modelled from the spec: the `set` function the state library hands to the state
creator, called with an updater function. The library (not part of the repository)
applies the updater to the current state and merges the returned record into it; the
devtools wrapper forwards the call unchanged and mirrors the new state to a browser
extension, an output that is not modelled. -/
def set (state : Obj) (updater : Obj → Except Failure Obj) : Except Failure Obj :=
  match updater state with
  | .ok nextState => .ok (assign state nextState)
  | .error e => .error e

/-- The mutator `increase: ()=>set((state)=>({count:state.count +1}))`. -/
def increase (state : Obj) : Except Failure Obj :=
  set state (fun state =>
    match plusOne (getField state "count") with
    | .ok next => .ok [("count", next)]
    | .error e => .error e)

/-- The store `useCounterStore` at creation: the record returned by the state creator,
`{count: 0, increase}`. -/
def useCounterStore : Obj :=
  [("count", .num 0), ("increase", .fn .increase)]

/-- Calling a function value of the counter application with the given arguments.
`increase` takes no parameters and ignores what it is passed. -/
def call (f : Val) (_args : List Val) (state : Obj) : Except Failure Obj :=
  match f with
  | .fn .increase => increase state
  | .fn _ => .error .unsupported
  | _ => .error (.typeError "not a function")

/-- The state after `n` successive calls of `increase`. -/
def increaseTimes : Nat → Obj → Except Failure Obj
  | 0, state => .ok state
  | n + 1, state =>
    match increaseTimes n state with
    | .ok state' => increase state'
    | .error e => .error e

/-- The states the store can be in: the state at creation and every state `increase`
produces from one of them. -/
inductive Reachable : Obj → Prop where
  | init : Reachable useCounterStore
  | step {s s' : Obj} : Reachable s → increase s = .ok s' → Reachable s'

/-- The component `Counter`: `useCounterStore()` without a selector returns the whole
state, from which `count` and `increase` are taken. -/
def Counter (state : Obj) : Except Failure Node :=
  let count := getField state "count"
  let increase := getField state "increase"
  match renderChild count with
  | .ok shown =>
    .ok (.elem "div" none
      [ .elem "h2" none (.text "Count: " :: shown),
        .elem "button" (some (.ref increase)) [.text "Increase"] ])
  | .error e => .error e

/-- A click on the button labelled `label` of the rendered `Counter`. -/
def click (label : String) (event : Val) (state : Obj) : Except Failure Obj :=
  match Counter state with
  | .ok view =>
    match findButton label (Node.buttons view) with
    | some h => activate call h event state
    | none => .error .noSuchControl
  | .error e => .error e

/-- The counter state whose `count` is `n`: `{count: n, increase}`. -/
def counterState (n : Nat) : Obj :=
  [("count", .num n), ("increase", .fn .increase)]

/-- The value of `count` after `n` successive calls of `increase` on the store as
created. -/
def countAfter (n : Nat) : Except Failure Val :=
  match increaseTimes n useCounterStore with
  | .ok state => .ok (getField state "count")
  | .error e => .error e

end Devtools

/-! ## zustand-persist: the authentication store -/

namespace Persist

/-- The item kept under the key `"auth-storage"`, after parsing: the persisted state and
the version it was written with. -/
structure StorageValue where
  state : Obj
  version : Val

/-- The authentication store together with the storage boundary it writes through to:
`state` is the store record, `storage` the item under `"auth-storage"` (`none` when there
is no such item). -/
structure AuthStore where
  state : Obj
  storage : Option StorageValue

/-- Modelled from the spec: the `set` function handed to the state creator under the
persistence middleware (a library outside the repository), called with a record. The new
state is the old one with the record merged in, and the item under `"auth-storage"` is
rewritten from the new state ("written on every mutation") as JSON, with version 0, the
middleware default. -/
def set (store : AuthStore) (patch : Obj) : AuthStore :=
  let state := assign store.state patch
  { state := state, storage := some { state := jsonFields state, version := .num 0 } }

/-- The mutator `login: (name)=>set({user:{name}})`. -/
def login (store : AuthStore) (name : Val) : AuthStore :=
  set store [("user", .obj [("name", name)])]

/-- The mutator `logout: ()=>set({user:null})`. -/
def logout (store : AuthStore) : AuthStore :=
  set store [("user", .null)]

/-- The record returned by the state creator of `authStore.js`:
`{user: null, login, logout}`. -/
def initialState : Obj :=
  [("user", .null), ("login", .fn .login), ("logout", .fn .logout)]

/-- Modelled from the spec: what the persistence middleware takes from the item it
reads at store creation. An item written with a numeric version other than 0 is
rejected (no migration is configured); otherwise the item's state is used. -/
def persistedState : Option StorageValue → Option Obj
  | none => none
  | some item =>
    match item.version with
    | .num v => if v = 0 then some item.state else none
    | _ => some item.state

/-- Modelled from the spec: the default merge of the persistence middleware,
`{...currentState, ...persistedState}`. -/
def merge (persisted : Option Obj) (current : Obj) : Obj :=
  match persisted with
  | some p => assign current p
  | none => current

/-- The store `useAuthStore` at creation, given the item found under `"auth-storage"`
("read at store initialization"): the state creator's record with the persisted state
merged over it. Reading does not write. -/
def useAuthStore (item : Option StorageValue) : AuthStore :=
  { state := merge (persistedState item) initialState, storage := item }

/-- The field `user` of the store. -/
def user (store : AuthStore) : Val := getField store.state "user"

/-- Calling a function value of the authentication application. A missing argument is
`undefined`; calling anything that is not a function throws. -/
def call (f : Val) (args : List Val) (store : AuthStore) : Except Failure AuthStore :=
  match f with
  | .fn .login => .ok (login store (args.headD .undefined))
  | .fn .logout => .ok (logout store)
  | .fn _ => .error .unsupported
  | _ => .error (.typeError "not a function")

/-- A mutator call. -/
inductive Op where
  | login (name : Val)
  | logout

/-- The store after one mutator call. -/
def step (store : AuthStore) : Op → AuthStore
  | .login name => login store name
  | .logout => logout store

/-- The store after a sequence of mutator calls. -/
def run (ops : List Op) (store : AuthStore) : AuthStore :=
  ops.foldl step store

/-- Modelled from the spec: the own properties of the bound hook `useAuthStore`, the
function the state library returns from `create`. They are the store interface
(`setState`, `getState`, `getInitialState`, `subscribe`) and the `persist` interface
added by the middleware. The fields of the state are not among them: those are what a
call `useAuthStore()` returns. -/
def hookProperties : Obj :=
  [ ("setState", .fn (.api "setState")),
    ("getState", .fn (.api "getState")),
    ("getInitialState", .fn (.api "getInitialState")),
    ("subscribe", .fn (.api "subscribe")),
    ("persist", .obj
      [ ("setOptions", .fn (.api "persist.setOptions")),
        ("clearStorage", .fn (.api "persist.clearStorage")),
        ("rehydrate", .fn (.api "persist.rehydrate")),
        ("hasHydrated", .fn (.api "persist.hasHydrated")),
        ("onHydrate", .fn (.api "persist.onHydrate")),
        ("onFinishHydration", .fn (.api "persist.onFinishHydration")),
        ("getOptions", .fn (.api "persist.getOptions")) ]) ]

/-- The body of the component `App` after its first line, for the record `bound` that
`user`, `login` and `logout` are destructured from. -/
def appBody (bound : Obj) : Except Failure Node :=
  let user := getField bound "user"
  let login := getField bound "login"
  let logout := getField bound "logout"
  if truthy user then
    match getProp user "name" with
    | .ok name =>
      match renderChild name with
      | .ok shown =>
        .ok (.elem "div" none
          [ .elem "h1" none [.text "Zustand Middleware example"],
            .elem "h2" none (.text "Welcome, " :: shown),
            .elem "button" (some (.ref logout)) [.text "Logout"] ])
      | .error e => .error e
    | .error e => .error e
  else
    .ok (.elem "div" none
      [ .elem "h1" none [.text "Zustand Middleware example"],
        .elem "button" (some (.arrow login [.str "Guest"])) [.text "Login as Guest"] ])

/-- The component `App`. Its first line is `const {user, login, logout} = useAuthStore;`:
the hook is not called, so the three names are read from the hook function itself and
the store's state is not consulted. -/
def App (_store : AuthStore) : Except Failure Node :=
  appBody hookProperties

/-- A click on the control labelled `label` of the rendered `App`. -/
def click (label : String) (event : Val) (store : AuthStore) : Except Failure AuthStore :=
  match App store with
  | .ok view =>
    match findButton label (Node.buttons view) with
    | some h => activate call h event store
    | none => .error .noSuchControl
  | .error e => .error e

end Persist

/-! ## Records: reading after writing -/

theorem getField_setField_same (o : Obj) (k : String) (v : Val) :
    getField (setField o k v) k = v := by
  induction o with
  | nil => simp [setField, getField]
  | cons e rest ih =>
    obtain ⟨k', w⟩ := e
    by_cases h : k' = k
    · simp [setField, getField, h]
    · simp [setField, getField, h, ih]

theorem getField_setField_ne (o : Obj) (k k' : String) (v : Val) (h : k' ≠ k) :
    getField (setField o k v) k' = getField o k' := by
  induction o with
  | nil => simp [setField, getField, Ne.symm h]
  | cons e rest ih =>
    obtain ⟨k₀, w⟩ := e
    by_cases h₀ : k₀ = k
    · subst h₀
      simp [setField, getField, Ne.symm h]
    · by_cases h₁ : k₀ = k'
      · subst h₁
        simp [setField, getField, h₀]
      · simp [setField, getField, h₀, h₁, ih]

theorem setField_setField_same (o : Obj) (k : String) (v v' : Val) :
    setField (setField o k v) k v' = setField o k v' := by
  induction o with
  | nil => simp [setField]
  | cons e rest ih =>
    obtain ⟨k₀, w⟩ := e
    by_cases h₀ : k₀ = k
    · simp [setField, h₀]
    · simp [setField, h₀, ih]

theorem setField_eq_self (o : Obj) (k : String) (v : Val)
    (h : getField o k = v) (hv : v ≠ .undefined) : setField o k v = o := by
  induction o with
  | nil => simp [getField] at h; exact absurd h.symm hv
  | cons e rest ih =>
    obtain ⟨k₀, w⟩ := e
    by_cases h₀ : k₀ = k
    · simp [getField, h₀] at h
      simp [setField, h₀, h]
    · simp [getField, h₀] at h
      simp [setField, h₀, ih h]

theorem assign_single (o : Obj) (k : String) (v : Val) :
    assign o [(k, v)] = setField o k v := rfl

/-! ## Numbers -/

theorem exactLimit_eq : exactLimit = 2 ^ 53 := rfl

theorem addOne_of_lt (n : Nat) (h : n < exactLimit) : addOne n = n + 1 := by
  simp [addOne, h]

theorem addOne_exactLimit : addOne exactLimit = exactLimit := by
  simp [addOne, exactLimit]

theorem addOne_min (n : Nat) : addOne (min n exactLimit) = min (n + 1) exactLimit := by
  by_cases h : n < exactLimit
  · rw [Nat.min_eq_left (Nat.le_of_lt h), addOne_of_lt n h, Nat.min_eq_left h]
  · have h' : exactLimit ≤ n := Nat.le_of_not_lt h
    rw [Nat.min_eq_right h', addOne_exactLimit, Nat.min_eq_right (Nat.le_succ_of_le h')]

theorem numberToString_of_lt (n : Nat) (h : n < 10 ^ 21) :
    numberToString n = .ok (toString n) := by
  unfold numberToString
  rw [if_pos h]

theorem renderChild_num (n : Nat) (h : n < 10 ^ 21) :
    renderChild (.num n) = .ok [.text (toString n)] := by
  simp only [renderChild, numberToString_of_lt n h]

/-! ## The counter store -/

namespace Devtools

theorem increase_of_count (s : Obj) (n : Nat) (h : getField s "count" = .num n) :
    increase s = .ok (setField s "count" (.num (addOne n))) := by
  simp [increase, set, h, plusOne, assign_single]

theorem Counter_of_count (s : Obj) (n : Nat)
    (hc : getField s "count" = .num n) (hi : getField s "increase" = .fn .increase)
    (hlt : n < 10 ^ 21) :
    Counter s = .ok (.elem "div" none
      [ .elem "h2" none [.text "Count: ", .text (toString n)],
        .elem "button" (some (.ref (.fn .increase))) [.text "Increase"] ]) := by
  simp only [Counter, hc, hi, renderChild_num n hlt]

theorem click_of_count (s : Obj) (n : Nat) (event : Val)
    (hc : getField s "count" = .num n) (hi : getField s "increase" = .fn .increase)
    (hlt : n < 10 ^ 21) :
    click "Increase" event s = increase s := by
  simp [click, Counter_of_count s n hc hi hlt, Node.buttons, buttonsList, textContentList,
    Node.textContent, findButton, activate, call]

theorem increase_counterState (n : Nat) :
    increase (counterState n) = .ok (counterState (addOne n)) := by
  rw [increase_of_count (counterState n) n rfl]
  rfl

theorem increaseTimes_useCounterStore (n : Nat) :
    increaseTimes n useCounterStore = .ok (counterState (min n exactLimit)) := by
  induction n with
  | zero => rfl
  | succ n ih => simp only [increaseTimes, ih, increase_counterState, addOne_min]

theorem countAfter_eq (n : Nat) : countAfter n = .ok (.num (min n exactLimit)) := by
  simp [countAfter, increaseTimes_useCounterStore, counterState, getField]

theorem counterState_reachable (n : Nat) : Reachable (counterState (min n exactLimit)) := by
  induction n with
  | zero => exact Reachable.init
  | succ n ih =>
    refine Reachable.step ih ?_
    rw [increase_counterState, addOne_min]

theorem reachable_shape (s : Obj) (h : Reachable s) :
    ∃ n, n ≤ exactLimit ∧ s = counterState n := by
  induction h with
  | init => exact ⟨0, Nat.zero_le _, rfl⟩
  | step _ hstep ih =>
    obtain ⟨n, hn, rfl⟩ := ih
    rw [increase_counterState] at hstep
    refine ⟨addOne n, ?_, ?_⟩
    · rcases Nat.lt_or_ge n exactLimit with hlt | hge
      · rw [addOne_of_lt n hlt]; exact hlt
      · rw [Nat.le_antisymm hn hge, addOne_exactLimit]
    · cases hstep; rfl

/-- Claim C1, as amended: for every N up to 2^53, calling `increase` N times on the
store as created (count = 0) succeeds and leaves count equal to N. -/
theorem count_after_calls (N : Nat) (h : N ≤ 2 ^ 53) :
    countAfter N = .ok (.num N) := by
  rw [countAfter_eq, Nat.min_eq_left (exactLimit_eq ▸ h)]

/-- Instance of C1: one call gives count = 1 and three calls give count = 3. -/
theorem count_after_calls_witness :
    (1 ≤ 2 ^ 53 ∧ countAfter 1 = .ok (.num 1)) ∧ (3 ≤ 2 ^ 53 ∧ countAfter 3 = .ok (.num 3)) :=
  ⟨⟨by decide, count_after_calls 1 (by decide)⟩, ⟨by decide, count_after_calls 3 (by decide)⟩⟩

/-- Claim C1 fails as stated at N = 2^53 + 1: after that many calls count is 2^53, the
last call having left it unchanged because 2^53 + 1 is not a Number. -/
theorem count_after_one_past_limit :
    countAfter (2 ^ 53 + 1) = .ok (.num (2 ^ 53)) ∧
      countAfter (2 ^ 53 + 1) ≠ .ok (.num (2 ^ 53 + 1)) := by
  have h : countAfter (2 ^ 53 + 1) = .ok (.num (2 ^ 53)) := by
    rw [countAfter_eq, exactLimit_eq, Nat.min_eq_right (Nat.le_succ _)]
  refine ⟨h, ?_⟩
  rw [h]
  intro hc
  injection hc with hv
  injection hv with hn
  exact absurd hn (by decide)

/-- Claim C7, as amended: in a counter state whose count is n < 2^53, `Counter` renders
the heading `Count: n` and a button whose click, whatever event object it passes, is a
call of `increase` that succeeds and leaves count equal to n + 1. -/
theorem counter_view (s : Obj) (n : Nat) (event : Val)
    (hc : getField s "count" = .num n) (hi : getField s "increase" = .fn .increase)
    (hn : n < 2 ^ 53) :
    Counter s = .ok (.elem "div" none
      [ .elem "h2" none [.text "Count: ", .text (toString n)],
        .elem "button" (some (.ref (.fn .increase))) [.text "Increase"] ]) ∧
    textContentList [.text "Count: ", .text (toString n)] = "Count: " ++ toString n ∧
    click "Increase" event s = increase s ∧
    ∃ s', click "Increase" event s = .ok s' ∧ getField s' "count" = .num (n + 1) := by
  have hlt : n < 10 ^ 21 := Nat.lt_trans hn (by decide)
  have hclick : click "Increase" event s = increase s := click_of_count s n event hc hi hlt
  refine ⟨Counter_of_count s n hc hi hlt, ?_, hclick, ?_⟩
  · simp [textContentList, Node.textContent]
  · rw [hclick, increase_of_count s n hc, addOne_of_lt n (exactLimit_eq ▸ hn)]
    exact ⟨_, rfl, getField_setField_same s "count" _⟩

/-- Instance of C7 at the store as created: the heading is `Count: 0` and a click
leaves count = 1. -/
theorem counter_view_witness :
    Counter useCounterStore = .ok (.elem "div" none
      [ .elem "h2" none [.text "Count: ", .text (toString 0)],
        .elem "button" (some (.ref (.fn .increase))) [.text "Increase"] ]) ∧
    textContentList [.text "Count: ", .text (toString 0)] = "Count: " ++ toString 0 ∧
    click "Increase" .null useCounterStore = increase useCounterStore ∧
    ∃ s', click "Increase" .null useCounterStore = .ok s' ∧ getField s' "count" = .num (0 + 1) :=
  counter_view useCounterStore 0 .null rfl rfl (by decide)

/-- Claim C7 fails as stated at n = 2^53: a click on the button of that state is a call
of `increase` that leaves count at 2^53, not at 2^53 + 1. -/
theorem counter_click_at_limit :
    click "Increase" .null (counterState (2 ^ 53)) = .ok (counterState (2 ^ 53)) ∧
      getField (counterState (2 ^ 53)) "count" = .num (2 ^ 53) ∧
      getField (counterState (2 ^ 53)) "count" ≠ .num (2 ^ 53 + 1) := by
  refine ⟨?_, rfl, ?_⟩
  · rw [click_of_count (counterState (2 ^ 53)) (2 ^ 53) .null rfl rfl (by decide),
      increase_counterState, ← exactLimit_eq, addOne_exactLimit]
  · intro hc
    simp [counterState, getField] at hc

/-- Claim C9, as amended: in every state reachable from the store as created, count is
a non-negative integer n ≤ 2^53, and a call of `increase` (the only operation) succeeds,
changes no field but count, and leaves count at n + 1 when n < 2^53 and at n when
n = 2^53; count never decreases. -/
theorem reachable_count (s : Obj) (h : Reachable s) :
    ∃ n, getField s "count" = .num n ∧ n ≤ 2 ^ 53 ∧
      ∃ n', increase s = .ok (setField s "count" (.num n')) ∧
        n' = (if n < 2 ^ 53 then n + 1 else n) ∧ n ≤ n' := by
  obtain ⟨n, hn, rfl⟩ := reachable_shape s h
  refine ⟨n, rfl, exactLimit_eq ▸ hn, addOne n, increase_of_count _ n rfl, ?_, ?_⟩
  · rcases Nat.lt_or_ge n exactLimit with hlt | hge
    · rw [addOne_of_lt n hlt, if_pos (exactLimit_eq ▸ hlt)]
    · have he : n = exactLimit := Nat.le_antisymm hn hge
      rw [he, addOne_exactLimit, exactLimit_eq, if_neg (Nat.lt_irrefl _)]
  · rcases Nat.lt_or_ge n exactLimit with hlt | hge
    · rw [addOne_of_lt n hlt]; exact Nat.le_succ n
    · rw [Nat.le_antisymm hn hge, addOne_exactLimit]

/-- Instance of C9 at the store as created. -/
theorem reachable_count_witness :
    ∃ n, getField useCounterStore "count" = .num n ∧ n ≤ 2 ^ 53 ∧
      ∃ n', increase useCounterStore = .ok (setField useCounterStore "count" (.num n')) ∧
        n' = (if n < 2 ^ 53 then n + 1 else n) ∧ n ≤ n' :=
  reachable_count useCounterStore Reachable.init

/-- Claim C9 fails as stated at the state with count = 2^53: it is reachable, and a call
of `increase` there returns the same state, so count is not raised by 1. -/
theorem reachable_limit_not_raised :
    Reachable (counterState (2 ^ 53)) ∧
      increase (counterState (2 ^ 53)) = .ok (counterState (2 ^ 53)) ∧
      getField (counterState (2 ^ 53)) "count" ≠ .num (2 ^ 53 + 1) := by
  refine ⟨?_, ?_, ?_⟩
  · have h := counterState_reachable (2 ^ 53)
    rwa [exactLimit_eq, Nat.min_self] at h
  · rw [increase_counterState, ← exactLimit_eq, addOne_exactLimit]
  · intro hc
    simp [counterState, getField] at hc

end Devtools

/-! ## The authentication store -/

namespace Persist

theorem user_set (store : AuthStore) (u : Val) :
    user (set store [("user", u)]) = u := by
  simp only [user, set, assign_single, getField_setField_same]

theorem set_frame (store : AuthStore) (u : Val) (k : String) (h : k ≠ "user") :
    getField (set store [("user", u)]).state k = getField store.state k := by
  simp only [set, assign_single, getField_setField_ne _ "user" k u h]

theorem step_frame (store : AuthStore) (op : Op) (k : String) (h : k ≠ "user") :
    getField (step store op).state k = getField store.state k := by
  cases op with
  | login name => exact set_frame store _ k h
  | logout => exact set_frame store _ k h

theorem run_frame (ops : List Op) (store : AuthStore) (k : String) (h : k ≠ "user") :
    getField (run ops store).state k = getField store.state k := by
  induction ops generalizing store with
  | nil => rfl
  | cons op rest ih =>
    show getField (run rest (step store op)).state k = _
    rw [ih (step store op), step_frame store op k h]

/-- The view `appBody` returns for a record whose `user` is falsy: the heading and the
login control. -/
theorem appBody_signed_out (bound : Obj) (h : truthy (getField bound "user") = false) :
    appBody bound = .ok (.elem "div" none
      [ .elem "h1" none [.text "Zustand Middleware example"],
        .elem "button" (some (.arrow (getField bound "login") [.str "Guest"]))
          [.text "Login as Guest"] ]) := by
  simp [appBody, h]

/-- The view `appBody` returns for a record whose `user` is `{name: X}` with `X` a
string: the heading, `Welcome, X` and the logout control. This is what `App` would show
were `user`, `login` and `logout` taken from the store's state. -/
theorem appBody_signed_in (bound : Obj) (x : String)
    (h : getField bound "user" = .obj [("name", .str x)]) :
    appBody bound = .ok (.elem "div" none
      [ .elem "h1" none [.text "Zustand Middleware example"],
        .elem "h2" none [.text "Welcome, ", .text x],
        .elem "button" (some (.ref (getField bound "logout"))) [.text "Logout"] ]) := by
  simp [appBody, h, truthy, getProp, getField, renderChild]

theorem App_eq (store : AuthStore) :
    App store = .ok (.elem "div" none
      [ .elem "h1" none [.text "Zustand Middleware example"],
        .elem "button" (some (.arrow .undefined [.str "Guest"])) [.text "Login as Guest"] ]) :=
  rfl

/-- Claim C2: for every name and every prior store, the call `login(name)` succeeds and
leaves `user` equal to the record `{name: name}` with no other field; in particular
`login("Guest")` gives `{name: "Guest"}`. -/
theorem login_sets_user (store : AuthStore) (name : Val) :
    call (.fn .login) [name] store = .ok (login store name) ∧
      user (login store name) = .obj [("name", name)] ∧
      user (login store (.str "Guest")) = .obj [("name", .str "Guest")] :=
  ⟨rfl, user_set store _, user_set store _⟩

/-- Claim C3: for every name and every prior store, `login(name)` followed by
`logout()` leaves `user` equal to null. -/
theorem login_then_logout (store : AuthStore) (name : Val) :
    user (logout (login store name)) = .null :=
  user_set (login store name) .null

/-- Claim C4: `logout` is idempotent. In a store whose `user` is already null a call of
`logout()` leaves `user` null (the state record is unchanged), and in every store two
calls of `logout()` give the same store as one. -/
theorem logout_idempotent (store : AuthStore) :
    (user store = .null →
      user (logout store) = .null ∧ (logout store).state = store.state) ∧
    logout (logout store) = logout store := by
  refine ⟨fun h => ⟨user_set store .null, ?_⟩, ?_⟩
  · simp only [logout, set, assign_single]
    exact setField_eq_self store.state "user" .null h (by simp)
  · simp only [logout, set, assign_single, setField_setField_same]

/-- Instance of C4 at the store created with nothing stored, whose `user` is null. -/
theorem logout_idempotent_witness :
    user (useAuthStore none) = .null ∧
      (user (logout (useAuthStore none)) = .null ∧
        (logout (useAuthStore none)).state = (useAuthStore none).state) :=
  ⟨rfl, (logout_idempotent (useAuthStore none)).1 rfl⟩

/-- Claim C5 does not hold of the code: in the store reached by `login("Guest")`, whose
`user` is `{name: "Guest"}`, `App` still renders the login control and neither a welcome
message nor a logout control, because it reads `user` from the hook function instead of
the store's state. -/
theorem app_shows_login_when_signed_in :
    user (login (useAuthStore none) (.str "Guest")) = .obj [("name", .str "Guest")] ∧
      App (login (useAuthStore none) (.str "Guest")) = .ok (.elem "div" none
        [ .elem "h1" none [.text "Zustand Middleware example"],
          .elem "button" (some (.arrow .undefined [.str "Guest"])) [.text "Login as Guest"] ]) :=
  ⟨rfl, rfl⟩

/-- Claim C6 does not hold of the code: in every store, activating the login control of
`App` throws a TypeError, since the `login` it calls is `undefined`, so `user` is not
set; and the view has no logout control to activate. -/
theorem app_login_click_throws (store : AuthStore) (event : Val) :
    click "Login as Guest" event store = .error (.typeError "not a function") ∧
      click "Logout" event store = .error .noSuchControl :=
  ⟨rfl, rfl⟩

/-- Claim C8, as amended: the state creator's `user` is null, and right after creation
`user` is null when nothing is stored under `"auth-storage"` or when the stored item was
written with a version other than 0; when the stored item has version 0 and state
`{user: u}`, `user` right after creation is `u`. -/
theorem created_user (u : Val) (v : Nat) :
    getField initialState "user" = .null ∧
      user (useAuthStore none) = .null ∧
      user (useAuthStore (some ⟨[("user", u)], .num 0⟩)) = u ∧
      (v ≠ 0 → user (useAuthStore (some ⟨[("user", u)], .num v⟩)) = .null) := by
  refine ⟨rfl, rfl, rfl, fun hv => ?_⟩
  simp [useAuthStore, persistedState, hv, merge, user, initialState, getField]

/-- Instance of C8 for an item written with version 1. -/
theorem created_user_witness :
    user (useAuthStore (some ⟨[("user", .obj [("name", .str "Guest")])], .num 1⟩)) = .null :=
  (created_user (.obj [("name", .str "Guest")]) 1).2.2.2 (by decide)

/-- Claim C8 fails as stated when the item under `"auth-storage"` is the one a previous
`login("Guest")` wrote: right after creation `user` is `{name: "Guest"}`, not null. -/
theorem stored_user_restored :
    (login (useAuthStore none) (.str "Guest")).storage =
        some ⟨[("user", .obj [("name", .str "Guest")])], .num 0⟩ ∧
      user (useAuthStore (some ⟨[("user", .obj [("name", .str "Guest")])], .num 0⟩)) =
        .obj [("name", .str "Guest")] ∧
      user (useAuthStore (some ⟨[("user", .obj [("name", .str "Guest")])], .num 0⟩)) ≠ .null := by
  refine ⟨rfl, rfl, ?_⟩
  intro h
  cases h

/-- Claim C10: each mutator changes only its own field. `increase` leaves every field
other than `count` as it was, `login` and `logout` leave every field other than `user`
as it was; after any number of `increase` calls from the store as created the field
`increase` still holds the mutator and calling it succeeds, and after any sequence of
`login` and `logout` calls the fields `login` and `logout` hold what they held before,
which at creation are the two mutators. -/
theorem mutators_frame (k : String) (s s' : Obj) (store : AuthStore) (name : Val)
    (n : Nat) (ops : List Op) :
    (Devtools.increase s = .ok s' → k ≠ "count" → getField s' k = getField s k) ∧
    (k ≠ "user" → getField (login store name).state k = getField store.state k ∧
      getField (logout store).state k = getField store.state k) ∧
    (∃ t t', Devtools.increaseTimes n Devtools.useCounterStore = .ok t ∧
      getField t "increase" = .fn .increase ∧
      Devtools.call (getField t "increase") [] t = .ok t') ∧
    (getField (run ops store).state "login" = getField store.state "login" ∧
      getField (run ops store).state "logout" = getField store.state "logout") ∧
    (getField (run ops (useAuthStore none)).state "login" = .fn .login ∧
      getField (run ops (useAuthStore none)).state "logout" = .fn .logout) := by
  refine ⟨?_, ?_, ?_, ?_, ?_⟩
  · intro h hk
    cases hc : plusOne (getField s "count") with
    | error e => simp [Devtools.increase, Devtools.set, hc] at h
    | ok next =>
      simp only [Devtools.increase, Devtools.set, hc, assign_single] at h
      cases h
      exact getField_setField_ne s "count" k next hk
  · intro hk
    exact ⟨set_frame store _ k hk, set_frame store _ k hk⟩
  · exact ⟨Devtools.counterState (min n exactLimit),
      Devtools.counterState (addOne (min n exactLimit)),
      Devtools.increaseTimes_useCounterStore n, rfl, Devtools.increase_counterState _⟩
  · exact ⟨run_frame ops store "login" (by decide), run_frame ops store "logout" (by decide)⟩
  · exact ⟨run_frame ops _ "login" (by decide), run_frame ops _ "logout" (by decide)⟩

/-- Instance of C10: after one `increase` the field `increase` is what it was, and after
`login("Guest")` the field `logout` is what it was. -/
theorem mutators_frame_witness :
    getField (Devtools.counterState 1) "increase" = getField Devtools.useCounterStore "increase" ∧
      getField (login (useAuthStore none) (.str "Guest")).state "logout" =
        getField (useAuthStore none).state "logout" :=
  ⟨(mutators_frame "increase" Devtools.useCounterStore (Devtools.counterState 1)
      (useAuthStore none) .null 0 []).1 rfl (by decide),
    ((mutators_frame "logout" [] [] (useAuthStore none) (.str "Guest") 0 []).2.1
      (by decide)).1⟩

end Persist

end ZustandMiddleware
